import Mathlib

/-!
Verification of the FluxAggregator contract gateway
(core/services/eth/contracts/FluxAggregator.go).

The Go source is shallowly embedded: Go uint64/uint32/uint8 fields become
Nat with explicit modular reduction where Go arithmetic can overflow,
Go pointers to big.Int (which may be nil in a zero value) become Option Int,
Go errors become Option String (none is a nil error), and the external
collaborators (the ConnectedContract call gateway, the ABI codec and the
log-decoding listener, which live outside of this file of the repository)
are modelled from the specification as explicit environments.
-/

namespace Contracts

/-- A 20-byte Ethereum account address, modelled as an opaque numeric id. -/
structure Address where
  val : Nat
deriving DecidableEq, Repr

/-- A 32-byte hash (event signature topic), modelled as an opaque numeric id. -/
structure Hash where
  val : Nat
deriving DecidableEq, Repr

/-- Embedding of the Go struct FluxAggregatorRoundState.  The uint32, uint64
and uint8 fields are Nat; the three pointer-to-big.Int fields are Option Int,
with none standing for a nil pointer (absent value). -/
structure FluxAggregatorRoundState where
  ReportableRoundID : Nat
  EligibleToSubmit : Bool
  LatestAnswer : Option Int
  Timeout : Nat
  StartedAt : Nat
  AvailableFunds : Option Int
  PaymentAmount : Option Int
  OracleCount : Nat
deriving DecidableEq, Repr

/-- Embedding of the Go struct FluxAggregatorRoundData: five pointer-to-big.Int
fields, none standing for a nil pointer. -/
structure FluxAggregatorRoundData where
  RoundID : Option Int
  Answer : Option Int
  StartedAt : Option Int
  UpdatedAt : Option Int
  AnsweredInRound : Option Int
deriving DecidableEq, Repr

/-- The Go zero value FluxAggregatorRoundState\x7b\x7d: numeric fields 0, the
Bool false, the pointer fields nil. -/
def zeroRoundState : FluxAggregatorRoundState :=
  { ReportableRoundID := 0, EligibleToSubmit := false, LatestAnswer := none,
    Timeout := 0, StartedAt := 0, AvailableFunds := none, PaymentAmount := none,
    OracleCount := 0 }

/-- The Go zero value FluxAggregatorRoundData\x7b\x7d: all pointer fields nil. -/
def zeroRoundData : FluxAggregatorRoundData :=
  { RoundID := none, Answer := none, StartedAt := none, UpdatedAt := none,
    AnsweredInRound := none }

/-- Embedding of the Go method FluxAggregatorRoundState.TimesOutAt, which
returns rs.StartedAt + rs.Timeout as Go uint64 addition: the sum is reduced
modulo 2 to the 64, since Go unsigned arithmetic wraps around on overflow. -/
def FluxAggregatorRoundState.TimesOutAt (rs : FluxAggregatorRoundState) : Nat :=
  (rs.StartedAt + rs.Timeout) % (2 ^ 64)

/-- The snapshot at the uint64 boundary: StartedAt is the maximal uint64 and
Timeout is 1, so the mathematical sum is exactly 2 to the 64. -/
def rsOverflow : FluxAggregatorRoundState :=
  { zeroRoundState with StartedAt := 2 ^ 64 - 1, Timeout := 1 }

/-- C1: for every round-state snapshot whose StartedAt and Timeout sum fits in
an unsigned 64-bit integer, TimesOutAt returns exactly StartedAt + Timeout.
Purity and absence of other inputs are structural: TimesOutAt is a total
function of the snapshot value alone (see also the noninterference theorem
for C10). -/
theorem timesOutAt_exact_when_sum_fits (rs : FluxAggregatorRoundState)
    (h : rs.StartedAt + rs.Timeout < 2 ^ 64) :
    rs.TimesOutAt = rs.StartedAt + rs.Timeout := by
  unfold FluxAggregatorRoundState.TimesOutAt
  exact Nat.mod_eq_of_lt h

/-- Witness for C1 at a concrete snapshot. -/
theorem timesOutAt_exact_when_sum_fits_witness :
    ({ zeroRoundState with StartedAt := 100, Timeout := 30
       } : FluxAggregatorRoundState).TimesOutAt = 130 := by
  have h : ({ zeroRoundState with StartedAt := 100, Timeout := 30
      } : FluxAggregatorRoundState).StartedAt +
      ({ zeroRoundState with StartedAt := 100, Timeout := 30
      } : FluxAggregatorRoundState).Timeout < 2 ^ 64 := by decide
  exact (timesOutAt_exact_when_sum_fits _ h).trans (by decide)

/-- C2: the code does not guard overflow.  At the snapshot with StartedAt equal
to the maximal uint64 and Timeout 1, the mathematical sum is 2 to the 64, yet
TimesOutAt returns 0: the Go uint64 addition wraps around modulo 2 to the 64
instead of saturating to the maximum or failing loudly. -/
theorem timesOutAt_wraps_at_boundary :
    rsOverflow.StartedAt + rsOverflow.Timeout = 2 ^ 64 ∧
    rsOverflow.TimesOutAt = 0 ∧
    rsOverflow.TimesOutAt ≠ 2 ^ 64 - 1 := by
  refine ⟨by decide, ?_, ?_⟩ <;> · unfold FluxAggregatorRoundState.TimesOutAt rsOverflow zeroRoundState; decide

/-- C10: TimesOutAt depends only on the StartedAt and Timeout fields: any two
snapshots agreeing on those two fields give the same result, whatever their
other fields hold. -/
theorem timesOutAt_noninterference (a b : FluxAggregatorRoundState)
    (h1 : a.StartedAt = b.StartedAt) (h2 : a.Timeout = b.Timeout) :
    a.TimesOutAt = b.TimesOutAt := by
  unfold FluxAggregatorRoundState.TimesOutAt
  rw [h1, h2]

/-- Witness for C10: two snapshots differing in every field other than
StartedAt and Timeout have the same TimesOutAt. -/
theorem timesOutAt_noninterference_witness :
    ({ ReportableRoundID := 7, EligibleToSubmit := true, LatestAnswer := some 42,
       Timeout := 30, StartedAt := 100, AvailableFunds := some 5,
       PaymentAmount := some 6, OracleCount := 3
       } : FluxAggregatorRoundState).TimesOutAt =
    ({ ReportableRoundID := 9, EligibleToSubmit := false, LatestAnswer := none,
       Timeout := 30, StartedAt := 100, AvailableFunds := none,
       PaymentAmount := none, OracleCount := 11
       } : FluxAggregatorRoundState).TimesOutAt :=
  timesOutAt_noninterference _ _ (by decide) (by decide)

/-- True when the character list pat occurs at the start of s. -/
def listHasPre : List Char → List Char → Bool
  | [], _ => true
  | _ :: _, [] => false
  | p :: ps, c :: cs => p == c && listHasPre ps cs

/-- True when the character list pat occurs contiguously somewhere inside s. -/
def listHasSub (pat : List Char) : List Char → Bool
  | [] => listHasPre pat []
  | c :: cs => listHasPre pat (c :: cs) || listHasSub pat cs

/-- Substring test on strings, via the character-list search above. -/
def strContains (s pat : String) : Bool :=
  listHasSub pat.data s.data

theorem listHasPre_append (pat x y : List Char) (h : listHasPre pat x = true) :
    listHasPre pat (x ++ y) = true := by
  induction pat generalizing x with
  | nil => rfl
  | cons p ps ih =>
    cases x with
    | nil => simp [listHasPre] at h
    | cons c cs =>
      simp only [listHasPre, Bool.and_eq_true] at h
      simp only [List.cons_append, listHasPre, Bool.and_eq_true]
      exact ⟨h.1, ih cs h.2⟩

theorem listHasSub_nil_pat (y : List Char) : listHasSub [] y = true := by
  induction y with
  | nil => rfl
  | cons c cs ih => simp [listHasSub, listHasPre]

theorem listHasSub_append_left (pat x y : List Char) (h : listHasSub pat x = true) :
    listHasSub pat (x ++ y) = true := by
  induction x with
  | nil =>
    cases pat with
    | nil => simp [listHasSub_nil_pat]
    | cons p ps => simp [listHasSub, listHasPre] at h
  | cons c cs ih =>
    simp only [listHasSub, Bool.or_eq_true] at h
    simp only [List.cons_append, listHasSub, Bool.or_eq_true]
    cases h with
    | inl h => exact Or.inl (listHasPre_append pat (c :: cs) y h)
    | inr h => exact Or.inr (ih h)

theorem strContains_append_left (a b pat : String)
    (h : strContains a pat = true) : strContains (a ++ b) pat = true := by
  have hd : (a ++ b).data = a.data ++ b.data := rfl
  unfold strContains at h ⊢
  rw [hd]
  exact listHasSub_append_left pat.data a.data b.data h

/-- Embedding of errors.Wrap from github.com/pkg/errors: the wrapped error
message is the added context, a colon and a space, then the cause message. -/
def errorsWrap (cause msg : String) : String :=
  msg ++ ": " ++ cause

/-- Modelled from the spec: the outcome of the Call gateway (the
ConnectedContract.Call collaborator, which encodes the arguments, performs the
read-only invocation and decodes the raw return bytes; its code is outside
this file of the repository).  Each field gives, per query, either the decoded
typed result or the cause message of the failure. -/
structure CallEnv where
  oracleRoundState : Address → Nat → Except String FluxAggregatorRoundState
  getOraclesCall : Except String (List Address)
  latestRoundDataCall : Except String FluxAggregatorRoundData

/-- Embedding of fluxAggregator.RoundState: on success the decoded snapshot
with a nil error, on failure the zero snapshot together with the cause wrapped
in the fixed context string of the source. -/
def RoundState (env : CallEnv) (oracle : Address) (roundID : Nat) :
    FluxAggregatorRoundState × Option String :=
  match env.oracleRoundState oracle roundID with
  | Except.ok result => (result, none)
  | Except.error e => (zeroRoundState, some (errorsWrap e "unable to encode message call"))

/-- Embedding of fluxAggregator.GetOracles: the Go code first sets the slice
to make with length 0 (a present, empty list, here some of the empty list) and
on success returns the decoded slice; on failure it returns the nil slice
(here none) together with the wrapped cause. -/
def GetOracles (env : CallEnv) : Option (List Address) × Option String :=
  match env.getOraclesCall with
  | Except.ok oracles => (some oracles, none)
  | Except.error e => (none, some (errorsWrap e "error calling flux aggregator getOracles"))

/-- Embedding of fluxAggregator.LatestRoundData: on success the decoded round
data with a nil error, on failure the zero record together with the cause
wrapped in the fixed context string of the source (which carries the
zero-rounds diagnostic hint). -/
def LatestRoundData (env : CallEnv) : FluxAggregatorRoundData × Option String :=
  match env.latestRoundDataCall with
  | Except.ok result => (result, none)
  | Except.error e =>
      (zeroRoundData,
       some (errorsWrap e "error calling fluxaggregator#latestRoundData - contract may have 0 rounds"))

/-- A call environment in which every query fails with the cause boom. -/
def envBoom : CallEnv :=
  { oracleRoundState := fun _ _ => Except.error "boom",
    getOraclesCall := Except.error "boom",
    latestRoundDataCall := Except.error "boom" }

/-- C3 counterexample: a failing RoundState invocation returns the error
message that is the fixed context of the source followed by the cause, and
that message does not contain the name oracleRoundState of the logical query,
contradicting the claim that every failing query names the operation. -/
theorem roundState_error_lacks_query_name :
    (RoundState envBoom ⟨0⟩ 1).snd = some "unable to encode message call: boom" ∧
    strContains "unable to encode message call: boom" "oracleRoundState" = false := by
  exact ⟨rfl, by decide⟩

/-- C3 amended: failing GetOracles and LatestRoundData invocations wrap the
cause in context naming the logical query (getOracles, latestRoundData), while
a failing RoundState invocation wraps the cause in the fixed context
"unable to encode message call", which describes the gateway step but does not
name the oracleRoundState query. -/
theorem query_error_context (env : CallEnv) (oracle : Address) (roundID : Nat)
    (e1 e2 e3 : String)
    (h1 : env.oracleRoundState oracle roundID = Except.error e1)
    (h2 : env.getOraclesCall = Except.error e2)
    (h3 : env.latestRoundDataCall = Except.error e3) :
    (RoundState env oracle roundID).snd =
      some ("unable to encode message call" ++ ": " ++ e1) ∧
    (GetOracles env).snd =
      some ("error calling flux aggregator getOracles" ++ ": " ++ e2) ∧
    (LatestRoundData env).snd =
      some ("error calling fluxaggregator#latestRoundData - contract may have 0 rounds" ++ ": " ++ e3) ∧
    strContains "error calling flux aggregator getOracles" "getOracles" = true ∧
    strContains "error calling fluxaggregator#latestRoundData - contract may have 0 rounds"
      "latestRoundData" = true := by
  refine ⟨?_, ?_, ?_, by decide, by decide⟩
  · unfold RoundState; rw [h1]; rfl
  · unfold GetOracles; rw [h2]; rfl
  · unfold LatestRoundData; rw [h3]; rfl

/-- Witness for the amended C3 at the all-failing environment. -/
theorem query_error_context_witness :
    (RoundState envBoom ⟨0⟩ 1).snd =
      some ("unable to encode message call" ++ ": " ++ "boom") ∧
    (GetOracles envBoom).snd =
      some ("error calling flux aggregator getOracles" ++ ": " ++ "boom") ∧
    (LatestRoundData envBoom).snd =
      some ("error calling fluxaggregator#latestRoundData - contract may have 0 rounds" ++ ": " ++ "boom") ∧
    strContains "error calling flux aggregator getOracles" "getOracles" = true ∧
    strContains "error calling fluxaggregator#latestRoundData - contract may have 0 rounds"
      "latestRoundData" = true := by
  have h := query_error_context envBoom ⟨0⟩ 1 "boom" "boom" "boom" rfl rfl rfl
  exact ⟨h.1, h.2.1, h.2.2.1, h.2.2.2.1, h.2.2.2.2⟩

/-- C7: a successful GetOracles against a contract with zero oracles returns
the present empty list (some of the empty list, the non-nil zero-length Go
slice), never the nil slice, with a nil error. -/
theorem getOracles_empty_not_nil (env : CallEnv)
    (h : env.getOraclesCall = Except.ok []) :
    GetOracles env = (some [], none) ∧ (GetOracles env).fst ≠ none := by
  unfold GetOracles
  rw [h]
  exact ⟨rfl, by simp⟩

/-- Witness for C7 at an environment whose contract has zero oracles. -/
theorem getOracles_empty_not_nil_witness :
    GetOracles { envBoom with getOraclesCall := Except.ok [] } = (some [], none) ∧
    (GetOracles { envBoom with getOraclesCall := Except.ok [] }).fst ≠ none :=
  getOracles_empty_not_nil _ rfl

/-- C8: every failing LatestRoundData invocation returns an error message that
contains the zero-rounds diagnostic hint of the source. -/
theorem latestRoundData_error_has_zero_rounds_hint (env : CallEnv) (e : String)
    (h : env.latestRoundDataCall = Except.error e) :
    ∃ msg, (LatestRoundData env).snd = some msg ∧
      strContains msg "contract may have 0 rounds" = true := by
  refine ⟨errorsWrap e
    "error calling fluxaggregator#latestRoundData - contract may have 0 rounds", ?_, ?_⟩
  · unfold LatestRoundData; rw [h]
  · unfold errorsWrap
    exact strContains_append_left _ e _
      (strContains_append_left _ ": " _ (by decide))

/-- Witness for C8 at the all-failing environment. -/
theorem latestRoundData_error_has_zero_rounds_hint_witness :
    ∃ msg, (LatestRoundData envBoom).snd = some msg ∧
      strContains msg "contract may have 0 rounds" = true :=
  latestRoundData_error_has_zero_rounds_hint envBoom "boom" rfl

/-- Embedding of the types.Log envelope carried by every raw log: the ordered
list of 32-byte topic hashes, the data payload (modelled as the list of its
decoded 256-bit words) and the block and transaction provenance fields. -/
structure RawLog where
  topics : List Hash
  data : List Int
  blockNumber : Nat
  blockHash : Hash
  txHash : Hash
  txIndex : Nat
  logIndex : Nat
  removed : Bool
deriving DecidableEq, Repr

/-- Embedding of the Go struct LogNewRound: the embedded types.Log envelope
plus the decoded round id, initiating account and start timestamp. -/
structure LogNewRound where
  Log : RawLog
  RoundId : Int
  StartedBy : Address
  StartedAt : Int
deriving DecidableEq, Repr

/-- Embedding of the Go struct LogAnswerUpdated: the embedded types.Log
envelope plus the decoded current value, round id and update timestamp. -/
structure LogAnswerUpdated where
  Log : RawLog
  Current : Int
  RoundId : Int
  UpdatedAt : Int
deriving DecidableEq, Repr

/-- Modelled from the spec: the ABI codec collaborator, reduced to its table
of known event signatures (event name to topic hash), as used by
MustGetV6ContractEventID; the codec code is outside this file of the
repository. -/
structure ABICodec where
  knownEvents : List (String × Hash)
deriving DecidableEq, Repr

/-- Lookup of an event name in the codec table of known event signatures. -/
def lookupEventTopic (codec : ABICodec) (eventName : String) : Option Hash :=
  match codec.knownEvents.find? (fun p => p.fst == eventName) with
  | some p => some p.snd
  | none => none

/-- Modelled from the spec: eth.MustGetV6ContractEventID eagerly fails (the
Must form panics, aborting the process at package initialization) when the
event name is absent from the codec table; the fatal abort is modelled by
none, so a program value exists only when the signature is present. -/
def MustGetV6ContractEventID (codec : ABICodec) (eventName : String) : Option Hash :=
  lookupEventTopic codec eventName

/-- The two topic hashes of the registry, obtained at construction. -/
structure FluxTopics where
  newRound : Hash
  answerUpdated : Hash
deriving DecidableEq, Repr

/-- The package-level topic initialization: both
AggregatorNewRoundLogTopic20191220 and AggregatorAnswerUpdatedLogTopic20191220
are assigned via MustGetV6ContractEventID, so the program aborts fatally
(none) when either signature is absent from the codec. -/
def aggregatorTopics (codec : ABICodec) : Option FluxTopics :=
  match MustGetV6ContractEventID codec "NewRound",
        MustGetV6ContractEventID codec "AnswerUpdated" with
  | some a, some b => some { newRound := a, answerUpdated := b }
  | _, _ => none

/-- The two prototype shapes of the registry. -/
inductive FluxLogType
  | newRound
  | answerUpdated
deriving DecidableEq, Repr

/-- Embedding of the map fluxAggregatorLogTypes: topic hash to the prototype
record shape the log decodes into; absent keys yield none. -/
def fluxAggregatorLogTypes (T : FluxTopics) (h : Hash) : Option FluxLogType :=
  if h = T.newRound then some FluxLogType.newRound
  else if h = T.answerUpdated then some FluxLogType.answerUpdated
  else none

/-- A decoded event record as delivered to a listener. -/
inductive FluxLogRecord
  | newRound (r : LogNewRound)
  | answerUpdated (r : LogAnswerUpdated)
deriving DecidableEq, Repr

/-- Modelled from the spec: the ABI codec decode of a NewRound log (the codec
code is outside this file of the repository).  Per the event signature, the
round id and the initiating account are the two indexed topics after the
signature topic and the start timestamp is the single data word; any other
shape is malformed and fails.  The raw-log envelope is embedded unchanged. -/
def decodeLogNewRound (raw : RawLog) : Option LogNewRound :=
  match raw.topics, raw.data with
  | [_, t1, t2], [d] =>
      some { Log := raw, RoundId := Int.ofNat t1.val, StartedBy := ⟨t2.val⟩,
             StartedAt := d }
  | _, _ => none

/-- Modelled from the spec: the ABI codec decode of an AnswerUpdated log.  Per
the event signature, the current value and the round id are the two indexed
topics after the signature topic and the update timestamp is the single data
word; any other shape is malformed and fails.  The raw-log envelope is
embedded unchanged. -/
def decodeLogAnswerUpdated (raw : RawLog) : Option LogAnswerUpdated :=
  match raw.topics, raw.data with
  | [_, t1, t2], [d] =>
      some { Log := raw, Current := Int.ofNat t1.val, RoundId := Int.ofNat t2.val,
             UpdatedAt := d }
  | _, _ => none

/-- What the pipeline does with one raw log: dropped silently (no delivery, no
error), delivered as exactly one decoded record, or reported as a per-log
decode error without delivery. -/
inductive HandledLog
  | dropped
  | delivered (rec : FluxLogRecord)
  | decodeError
deriving DecidableEq, Repr

/-- Modelled from the spec: the log classification and decoding pipeline the
decoding log listener installed by SubscribeToLogs applies to each raw log
pushed by the broadcaster (the listener code is outside this file of the
repository).  The first topic is looked up in fluxAggregatorLogTypes: absent
keys are dropped without error, present keys decode a fresh record of the
prototype shape and deliver it; a matched log that fails to decode is a
per-log error. -/
def handleLog (T : FluxTopics) (raw : RawLog) : HandledLog :=
  match raw.topics.head? with
  | none => HandledLog.dropped
  | some topic =>
    match fluxAggregatorLogTypes T topic with
    | none => HandledLog.dropped
    | some FluxLogType.newRound =>
        match decodeLogNewRound raw with
        | some rec => HandledLog.delivered (FluxLogRecord.newRound rec)
        | none => HandledLog.decodeError
    | some FluxLogType.answerUpdated =>
        match decodeLogAnswerUpdated raw with
        | some rec => HandledLog.delivered (FluxLogRecord.answerUpdated rec)
        | none => HandledLog.decodeError

/-- C4: a raw log whose first topic is neither the NewRound topic nor the
AnswerUpdated topic is dropped: nothing is delivered to the listener and no
error is reported. -/
theorem unrecognized_topic_dropped (T : FluxTopics) (raw : RawLog) (t : Hash)
    (h : raw.topics.head? = some t)
    (h1 : t ≠ T.newRound) (h2 : t ≠ T.answerUpdated) :
    handleLog T raw = HandledLog.dropped := by
  simp [handleLog, fluxAggregatorLogTypes, h, h1, h2]

/-- A concrete topic registry with two distinct hashes. -/
def topicsW : FluxTopics :=
  { newRound := ⟨1⟩, answerUpdated := ⟨2⟩ }

/-- A concrete raw log whose first topic ⟨5⟩ is in neither registry entry. -/
def rawUnknown : RawLog :=
  { topics := [⟨5⟩, ⟨7⟩, ⟨8⟩], data := [3], blockNumber := 10, blockHash := ⟨11⟩,
    txHash := ⟨12⟩, txIndex := 0, logIndex := 1, removed := false }

/-- Witness for C4 at the concrete unrecognized log. -/
theorem unrecognized_topic_dropped_witness :
    handleLog topicsW rawUnknown = HandledLog.dropped :=
  unrecognized_topic_dropped topicsW rawUnknown ⟨5⟩ rfl (by decide) (by decide)

/-- C5: a raw log whose first topic is the registered NewRound topic and whose
shape matches the NewRound event (two further indexed topics, one data word)
is delivered as exactly one decoded LogNewRound record whose fields come from
the payload: round id from the first indexed topic, initiating account from
the second, start timestamp from the data word, with the raw-log envelope
embedded unchanged.  Exactly-one delivery is structural: handleLog yields one
HandledLog per raw log, and a delivered value carries one record. -/
theorem newRound_log_delivered (T : FluxTopics) (raw : RawLog) (t1 t2 : Hash)
    (d : Int) (h : raw.topics = [T.newRound, t1, t2]) (h2 : raw.data = [d]) :
    handleLog T raw = HandledLog.delivered (FluxLogRecord.newRound
      { Log := raw, RoundId := Int.ofNat t1.val, StartedBy := ⟨t2.val⟩,
        StartedAt := d }) := by
  simp [handleLog, fluxAggregatorLogTypes, decodeLogNewRound, h, h2]

/-- A concrete raw log carrying a NewRound event of the registry topicsW. -/
def rawNewRound : RawLog :=
  { topics := [⟨1⟩, ⟨21⟩, ⟨22⟩], data := [99], blockNumber := 10, blockHash := ⟨11⟩,
    txHash := ⟨12⟩, txIndex := 0, logIndex := 1, removed := false }

/-- Witness for C5 at the concrete NewRound log. -/
theorem newRound_log_delivered_witness :
    handleLog topicsW rawNewRound = HandledLog.delivered (FluxLogRecord.newRound
      { Log := rawNewRound, RoundId := Int.ofNat 21, StartedBy := ⟨22⟩,
        StartedAt := 99 }) :=
  newRound_log_delivered topicsW rawNewRound ⟨21⟩ ⟨22⟩ 99 rfl rfl

/-- C6: when the NewRound signature (or the AnswerUpdated signature) is absent
from the codec table of known events, the package-level topic initialization
aborts fatally: no FluxTopics value exists, so no contract handle can be
constructed; this is a fatal abort at initialization, not a recoverable
runtime error value. -/
theorem missing_signature_aborts_construction (codec : ABICodec)
    (h : lookupEventTopic codec "NewRound" = none ∨
         lookupEventTopic codec "AnswerUpdated" = none) :
    aggregatorTopics codec = none := by
  unfold aggregatorTopics MustGetV6ContractEventID
  cases h with
  | inl h => rw [h]
  | inr h =>
    rw [h]
    cases lookupEventTopic codec "NewRound" <;> rfl

/-- Witness for C6 at a codec knowing only the AnswerUpdated signature. -/
theorem missing_signature_aborts_construction_witness :
    aggregatorTopics { knownEvents := [("AnswerUpdated", ⟨2⟩)] } = none :=
  missing_signature_aborts_construction { knownEvents := [("AnswerUpdated", ⟨2⟩)] }
    (Or.inl (by decide))

/-- C9: whenever a query fails, the accompanying result value is fully zeroed:
RoundState yields the zero snapshot, GetOracles the nil slice and
LatestRoundData the zero record, so no partially decoded output accompanies an
error. -/
theorem failing_queries_return_zero_values (env : CallEnv) (oracle : Address)
    (roundID : Nat) (e1 e2 e3 : String)
    (h1 : env.oracleRoundState oracle roundID = Except.error e1)
    (h2 : env.getOraclesCall = Except.error e2)
    (h3 : env.latestRoundDataCall = Except.error e3) :
    (RoundState env oracle roundID).fst = zeroRoundState ∧
    (GetOracles env).fst = none ∧
    (LatestRoundData env).fst = zeroRoundData := by
  refine ⟨?_, ?_, ?_⟩
  · unfold RoundState; rw [h1]
  · unfold GetOracles; rw [h2]
  · unfold LatestRoundData; rw [h3]

/-- Witness for C9 at the all-failing environment. -/
theorem failing_queries_return_zero_values_witness :
    (RoundState envBoom ⟨0⟩ 1).fst = zeroRoundState ∧
    (GetOracles envBoom).fst = none ∧
    (LatestRoundData envBoom).fst = zeroRoundData :=
  failing_queries_return_zero_values envBoom ⟨0⟩ 1 "boom" "boom" "boom" rfl rfl rfl

end Contracts
